import Mathlib

/-!
Verification development for the Syracuse 2024 LLM-response validation
framework (`Testing_and_Validation.py`).  The Python source is shallowly
embedded: the regular-expression extractors are rendered as one-pass
character automata equivalent to `re.findall` for the three concrete
patterns used by the code, numeric values are modelled as rationals
(Python floats are abstracted to exact rational arithmetic; the concrete
inputs used in the theorems are far from any binary-rounding boundary),
and `validate_response` is translated branch by branch.
-/

namespace SyracuseValidation

/- Batteries marks the rational arithmetic operations irreducible for
elaboration performance; this development evaluates concrete rational
expressions with `decide`, so reduction is restored locally (the kernel
ignores reducibility attributes, so proof checking is unaffected). -/
attribute [local semireducible] Rat.add Rat.mul Rat.sub Rat.inv

set_option maxRecDepth 4000

/-- ASCII lower-casing, the fragment of Python `str.lower` relevant to the
roster names and response texts handled here (all ASCII). -/
def asciiLower (c : Char) : Char :=
  if 'A' ≤ c ∧ c ≤ 'Z' then Char.ofNat (c.toNat + 32) else c

/-- Lower-case a whole text. -/
def lowerL (cs : List Char) : List Char := cs.map asciiLower

/-- Word characters of the regex `\w` class (ASCII fragment):
letters, digits and underscore.  Used for `\b` word boundaries. -/
def wordChar (c : Char) : Bool := c.isAlphanum || c = '_'

/-- Whitespace characters of the regex `\s` class (ASCII fragment). -/
def isSpaceChar (c : Char) : Bool :=
  c = ' ' || c = '\t' || c = '\n' || c = '\r' || c = '\x0b' || c = '\x0c'

/-- Numeric value of a decimal digit character. -/
def digitVal (c : Char) : ℕ := c.toNat - '0'.toNat

/-- The rational value of `a.f` where `f` has `k` decimal digits,
mirroring Python `float("a.f")` exactly on decimal literals. -/
def fracVal (a f k : ℕ) : ℚ := (a : ℚ) + (f : ℚ) / (10 : ℚ) ^ k

/-- Does `p` occur as a prefix of `s`?  (Python `str.startswith`.) -/
def startsL : List Char → List Char → Bool
  | [], _ => true
  | _ :: _, [] => false
  | p :: ps, c :: cs => p = c && startsL ps cs

/-- Does `pat` occur as a contiguous substring of `hay`?
(Python `pat in hay`.) -/
def containsL (hay pat : List Char) : Bool :=
  match hay with
  | [] => pat.isEmpty
  | _ :: rest => startsL pat hay || containsL rest pat

/-- State of the scanner for the number pattern
`\b\d+(?:\.\d+)?\b` of `_extract_numbers_and_percents`:
outside any token (tracking whether the previous character was a word
character, for `\b`), inside the integer digits, just after a decimal
point, or inside the fractional digits. -/
inductive NumSt where
  | out (prevW : Bool)
  | intg (a : ℕ)
  | dot (a : ℕ)
  | frac (a : ℕ) (f : ℕ) (k : ℕ)
deriving DecidableEq

/-- One-pass scanner equivalent to
`re.findall(r"\b\d+(?:\.\d+)?\b", text)` followed by `float`:
maximal digit runs starting at a word boundary, optionally extended by a
fractional part when the trailing `\b` still holds; when the trailing
boundary fails after the fractional digits the integer part alone is
emitted (its trailing boundary at the `.` always holds), exactly as the
backtracking regex engine behaves. -/
def goNums : NumSt → List Char → List ℚ
  | .out _, [] => []
  | .intg a, [] => [(a : ℚ)]
  | .dot a, [] => [(a : ℚ)]
  | .frac a f k, [] => [fracVal a f k]
  | .out pW, c :: rest =>
    if c.isDigit && !pW then goNums (.intg (digitVal c)) rest
    else goNums (.out (wordChar c)) rest
  | .intg a, c :: rest =>
    if c.isDigit then goNums (.intg (10 * a + digitVal c)) rest
    else if c = '.' then goNums (.dot a) rest
    else if wordChar c then goNums (.out true) rest
    else (a : ℚ) :: goNums (.out false) rest
  | .dot a, c :: rest =>
    if c.isDigit then goNums (.frac a (digitVal c) 1) rest
    else (a : ℚ) :: goNums (.out (wordChar c)) rest
  | .frac a f k, c :: rest =>
    if c.isDigit then goNums (.frac a (10 * f + digitVal c) (k + 1)) rest
    else if wordChar c then (a : ℚ) :: goNums (.out true) rest
    else fracVal a f k :: goNums (.out false) rest

/-- State of the scanner for the percentage pattern
`\b\d+(?:\.\d+)?\s*%` of `_extract_numbers_and_percents`; the extra
`ws` state holds a complete numeric candidate while `\s*` is consumed. -/
inductive PctSt where
  | out (prevW : Bool)
  | intg (a : ℕ)
  | dot (a : ℕ)
  | frac (a : ℕ) (f : ℕ) (k : ℕ)
  | ws (v : ℚ)
deriving DecidableEq

/-- One-pass scanner equivalent to
`re.findall(r"\b\d+(?:\.\d+)?\s*%", text)` followed by
`float(p.rstrip(chr(37)).strip())`: the numeric part of every
`%`-suffixed token.  On a failed fractional part followed by a second
`.` the fractional digits restart as a fresh integer candidate
(the regex engine finds that match when retrying at the next start
position). -/
def goPcts : PctSt → List Char → List ℚ
  | _, [] => []
  | .out pW, c :: rest =>
    if c.isDigit && !pW then goPcts (.intg (digitVal c)) rest
    else goPcts (.out (wordChar c)) rest
  | .intg a, c :: rest =>
    if c.isDigit then goPcts (.intg (10 * a + digitVal c)) rest
    else if c = '.' then goPcts (.dot a) rest
    else if c = '%' then (a : ℚ) :: goPcts (.out false) rest
    else if isSpaceChar c then goPcts (.ws (a : ℚ)) rest
    else goPcts (.out (wordChar c)) rest
  | .dot a, c :: rest =>
    if c.isDigit then goPcts (.frac a (digitVal c) 1) rest
    else goPcts (.out (wordChar c)) rest
  | .frac a f k, c :: rest =>
    if c.isDigit then goPcts (.frac a (10 * f + digitVal c) (k + 1)) rest
    else if c = '.' then goPcts (.dot f) rest
    else if c = '%' then fracVal a f k :: goPcts (.out false) rest
    else if isSpaceChar c then goPcts (.ws (fracVal a f k)) rest
    else goPcts (.out (wordChar c)) rest
  | .ws v, c :: rest =>
    if c = '%' then v :: goPcts (.out false) rest
    else if isSpaceChar c then goPcts (.ws v) rest
    else if c.isDigit then goPcts (.intg (digitVal c)) rest
    else goPcts (.out (wordChar c)) rest

/-- State of the scanner for the integer pattern `\b\d+\b` of
`_extract_numbers_legacy`. -/
inductive LegSt where
  | out (prevW : Bool)
  | intg (a : ℕ)
deriving DecidableEq

/-- One-pass scanner equivalent to `re.findall(r"\b\d+\b", text)`
followed by `int`: maximal digit runs delimited by word boundaries. -/
def goLegacy : LegSt → List Char → List ℕ
  | .out _, [] => []
  | .intg a, [] => [a]
  | .out pW, c :: rest =>
    if c.isDigit && !pW then goLegacy (.intg (digitVal c)) rest
    else goLegacy (.out (wordChar c)) rest
  | .intg a, c :: rest =>
    if c.isDigit then goLegacy (.intg (10 * a + digitVal c)) rest
    else if wordChar c then goLegacy (.out true) rest
    else a :: goLegacy (.out false) rest

/-- `_extract_numbers_and_percents`: the ordered numeric values and
percentage values extracted from a text. -/
def extract_numbers_and_percents (text : List Char) : List ℚ × List ℚ :=
  (goNums (.out false) text, goPcts (.out false) text)

/-- `_extract_numbers_legacy`: the ordered integers extracted from a
text. -/
def extract_numbers_legacy (text : List Char) : List ℕ :=
  goLegacy (.out false) text

/-- Python `round` on a numeric value: round to the nearest integer,
ties to the even integer (ties-to-even, bankers rounding), as `int(round(v))` does. -/
def pyRound (q : ℚ) : ℤ :=
  let fl := q.floor
  let r := q - (fl : ℚ)
  if r < 1/2 then fl
  else if 1/2 < r then fl + 1
  else if fl % 2 = 0 then fl else fl + 1

/-- Python `round(q, 1)`: round to one decimal place. -/
def round1 (q : ℚ) : ℚ := (pyRound (q * 10) : ℚ) / 10

/-- One row of the Syracuse 2024 roster statistics table built by
`create_syracuse_2024_dataset`. -/
structure PlayerRow where
  player : String
  jersey : ℕ
  goals : ℕ
  assists : ℕ
  points : ℕ
  shots : ℕ
  games : ℕ
deriving DecidableEq

/-- The 34-row player table of `create_syracuse_2024_dataset`, with the
columns Player, Jersey, Goals, Assists, Points, Shots, Games_Played. -/
def roster : List PlayerRow :=
  [⟨"Meaghan Tyrrell", 22, 70, 32, 102, 115, 21⟩,
   ⟨"Olivia Adamson", 22, 58, 25, 83, 109, 12⟩,
   ⟨"Emma Ward", 23, 44, 37, 81, 90, 10⟩,
   ⟨"Sam Swart", 2, 29, 18, 47, 53, 19⟩,
   ⟨"Payton Rowley", 19, 23, 15, 38, 55, 15⟩,
   ⟨"Maddy Baxter", 22, 30, 6, 36, 64, 14⟩,
   ⟨"Savannah Sweitzer", 21, 24, 9, 33, 54, 8⟩,
   ⟨"Emma Madnick", 22, 14, 13, 27, 42, 15⟩,
   ⟨"Jody Cerullo", 17, 11, 3, 14, 29, 10⟩,
   ⟨"Grace Britton", 19, 6, 4, 10, 17, 3⟩,
   ⟨"Kendall Rose", 7, 8, 1, 9, 11, 3⟩,
   ⟨"Kaci Benoit", 22, 1, 0, 1, 3, 21⟩,
   ⟨"Sloane Clark", 9, 1, 0, 1, 1, 1⟩,
   ⟨"Katie Goodale", 31, 0, 1, 1, 2, 43⟩,
   ⟨"Mackenzie Rich", 10, 0, 1, 1, 1, 19⟩,
   ⟨"Victoria Reid", 7, 0, 0, 0, 2, 19⟩,
   ⟨"Ryann Banks", 4, 0, 1, 1, 1, 0⟩,
   ⟨"Hallie Simpkins", 22, 0, 1, 1, 0, 26⟩,
   ⟨"McKenzie Oleen", 21, 0, 0, 0, 4, 3⟩,
   ⟨"Ruby Hnatkowiak", 22, 0, 0, 0, 2, 1⟩,
   ⟨"Sydney Pirreca", 6, 0, 0, 0, 1, 10⟩,
   ⟨"Carlie Desimone", 9, 0, 0, 0, 1, 0⟩,
   ⟨"Ally Quirk", 5, 0, 0, 0, 0, 0⟩,
   ⟨"Tate Paulson", 1, 0, 0, 0, 0, 1⟩,
   ⟨"Ryan Johnson", 6, 0, 0, 0, 0, 0⟩,
   ⟨"Georgia Sexton-Stone", 7, 0, 0, 0, 0, 0⟩,
   ⟨"Gwenna Gento", 7, 0, 0, 0, 0, 0⟩,
   ⟨"Ezra Lahan", 7, 0, 0, 0, 0, 1⟩,
   ⟨"Ella Bree", 6, 0, 0, 0, 0, 1⟩,
   ⟨"Talia Waders", 5, 0, 0, 0, 0, 0⟩,
   ⟨"Jenna Marino", 3, 0, 0, 0, 0, 0⟩,
   ⟨"Ana Horvit", 7, 0, 0, 0, 0, 0⟩,
   ⟨"Delaney Swartout", 22, 0, 0, 0, 0, 4⟩,
   ⟨"Daniella Guyette", 7, 0, 0, 0, 0, 0⟩]

/-- `df[col].idxmax` followed by row lookup: the first row attaining the
maximal value of `f` (pandas `idxmax` returns the first maximal index). -/
def firstMaxBy (f : PlayerRow → ℕ) : List PlayerRow → Option PlayerRow
  | [] => none
  | r :: rs => some (rs.foldl (fun best x => if f best < f x then x else best) r)

/-- Ground truth `top_scorer`: player of the first row with maximal
goals. -/
def top_scorer_name : String :=
  ((firstMaxBy (·.goals) roster).map (·.player)).getD ""

/-- Ground truth `top_scorer_goals`: the maximal goal count. -/
def top_scorer_goals : ℕ := (roster.map (·.goals)).foldl max 0

/-- Ground truth `top_assist`: player of the first row with maximal
assists. -/
def top_assist_name : String :=
  ((firstMaxBy (·.assists) roster).map (·.player)).getD ""

/-- Ground truth `top_assist_count`: the maximal assist count. -/
def top_assist_count : ℕ := (roster.map (·.assists)).foldl max 0

/-- Ground truth `total_goals`: sum of the Goals column. -/
def total_goals : ℕ := (roster.map (·.goals)).sum

/-- Ground truth `total_games`, from the hardcoded `team_stats`. -/
def total_games : ℕ := 22

/-- Ground truth `season_record` / `wins` / `losses`, from the hardcoded
`team_stats`. -/
def season_record : String := "16-6"

/-- Ground truth `wins`. -/
def wins : ℕ := 16

/-- Ground truth `losses`. -/
def losses : ℕ := 6

/-- Remove-first-maximum step used to realise
`df.sort_values(Goals, ascending=False).head(3)`: the first row with
maximal goals together with the remaining rows in order.  The top three
goal counts of the roster are pairwise distinct, so any descending sort
(pandas quicksort included) has exactly these rows as its head. -/
def extractMaxGoals : List PlayerRow → Option (PlayerRow × List PlayerRow)
  | [] => none
  | r :: rs =>
    match extractMaxGoals rs with
    | none => some (r, [])
    | some (m, rest) => if r.goals < m.goals then some (m, r :: rest) else some (r, rs)

/-- The top-3 goal scorers in descending goal order. -/
def top3Rows : List PlayerRow :=
  match extractMaxGoals roster with
  | none => []
  | some (a, r1) =>
    match extractMaxGoals r1 with
    | none => [a]
    | some (b, r2) =>
      match extractMaxGoals r2 with
      | none => [a, b]
      | some (c, _) => [a, b, c]

/-- `Shooting_Pct_calc` of `_calculate_ground_truth`: goals over shots as
a percentage, 0 when the player took no shots. -/
def shootPct (r : PlayerRow) : ℚ :=
  if 0 < r.shots then ((r.goals : ℚ) / (r.shots : ℚ)) * 100 else 0

/-- Ground truth `top3_shooting`: the top-3 goal scorers with their
shooting percentages rounded to one decimal. -/
def top3_shooting : List (String × ℚ) :=
  top3Rows.map (fun r => (r.player, round1 (shootPct r)))

/-- Ground truth `count_ge_10_goals`: number of roster rows with at
least 10 goals. -/
def count_ge_10_goals : ℕ := (roster.filter (fun r => 10 ≤ r.goals)).length

/-- Strip leading and trailing whitespace (Python `str.strip`). -/
def stripL (cs : List Char) : List Char :=
  ((cs.dropWhile isSpaceChar).reverse.dropWhile isSpaceChar).reverse

/-- The lower-cased known player names used by the rubric scorer
(`names` in `_score_strategic_response`); the strip filter drops
whitespace-only names. -/
def playerNamesLower : List (List Char) :=
  (roster.map (fun r => lowerL r.player.data)).filter (fun n => stripL n ≠ [])

/-- The fixed closed vocabulary of coaching-action terms of
`_score_strategic_response`. -/
def action_terms : List String :=
  ["focus", "improve", "increase", "reduce", "practice", "drill", "scheme",
   "set play", "assign", "rotate", "substitute", "optimize", "work on",
   "emphasize", "target", "adjust", "press", "zone", "man-to-man", "transition"]

/-- The three 1-5 rubric axis scores of `_score_strategic_response`. -/
structure RubricScores where
  specificity : ℕ
  actionability : ℕ
  plausibility : ℕ
deriving DecidableEq

/-- `_score_strategic_response`: heuristic rubric scoring of a free-form
strategic response. -/
def score_strategic_response (text : List Char) : RubricScores :=
  let text_l := lowerL text
  let mentions := (playerNamesLower.filter (fun n => containsL text_l n)).length
  let contains_numbers := text_l.any (·.isDigit)
  let specificity :=
    min 5 (1 + min 4 (mentions / 2) + (if contains_numbers then 1 else 0))
  let actionability :=
    max 1 (min 5 (1 + (action_terms.filter (fun t => containsL text_l t.data)).length))
  let plausOk :=
    !((containsL text_l "top scorer".data || containsL text_l "leading scorer".data)
        && !containsL text_l (lowerL top_scorer_name.data))
  { specificity := specificity, actionability := actionability,
    plausibility := if plausOk then 5 else 2 }

/-- The structured content of the `expected_answer` field of a
validation result (the Python code stores heterogeneous values: strings,
integers, formatted player/count strings, the top-3 list, or a fixed
rubric description; formatting is abstracted to constructors). -/
inductive ExpectedAns where
  | str (s : String)
  | nat (n : ℕ)
  | playerGoals (p : String) (g : ℕ)
  | playerAssists (p : String) (a : ℕ)
  | shootList (l : List (String × ℚ))
  | rubricDesc
deriving DecidableEq

/-- The structured content of the entries of the `notes` list of a
validation result: each constructor corresponds to one f-string appended
by `validate_response`, carrying the interpolated data. -/
inductive VNote where
  | expectedStr (s : String)
  | expectedWithInts (e : ℕ) (found : List ℕ)
  | includedGoalCount
  | expectedPlayer (p : String)
  | matchedHits (h : ℕ)
  | expectedWithVals (e : ℕ) (found : List ℚ)
  | scores (s : RubricScores)
deriving DecidableEq

/-- The result dictionary built by `validate_response`. -/
structure ValidationResult where
  question_type : String
  timestamp : String
  accuracy : Bool
  error_type : Option String
  notes : List VNote
  expected_answer : Option ExpectedAns
  llm_answer : List Char
deriving DecidableEq

/-- The `llm_answer` field: the response capped at 100 characters with
an ellipsis marker when truncated. -/
def truncResp (t : List Char) : List Char :=
  if 100 < t.length then t.take 100 ++ "...".data else t

/-- `validate_response(llm_response, question_type)`.  The
`datetime.now().isoformat()` timestamp is passed in as the explicit
argument `now`; everything else is translated branch by branch from the
Python dispatch chain.  The Python code builds one result dictionary and
mutates it along the chosen branch; here every branch is written as the
final value the dictionary has when it is returned. -/
def validate_response (now : String) (llm_response : String)
    (question_type : String) : ValidationResult :=
  let text := llm_response.data
  let legacy_ints := extract_numbers_legacy text
  let response_lower := lowerL text
  let ans := truncResp text
  if question_type = "season_record" then
    if containsL text season_record.data
        || containsL text (Nat.repr wins ++ "-" ++ Nat.repr losses).data then
      { question_type := question_type, timestamp := now, accuracy := true,
        error_type := none, notes := [],
        expected_answer := some (.str season_record), llm_answer := ans }
    else
      { question_type := question_type, timestamp := now, accuracy := false,
        error_type := some "incorrect_record", notes := [.expectedStr season_record],
        expected_answer := some (.str season_record), llm_answer := ans }
  else if question_type = "total_games" then
    if legacy_ints ≠ [] ∧ total_games ∈ legacy_ints then
      { question_type := question_type, timestamp := now, accuracy := true,
        error_type := none, notes := [],
        expected_answer := some (.nat total_games), llm_answer := ans }
    else
      { question_type := question_type, timestamp := now, accuracy := false,
        error_type := some "incorrect_calculation",
        notes := [.expectedWithInts total_games legacy_ints],
        expected_answer := some (.nat total_games), llm_answer := ans }
  else if question_type = "top_scorer" then
    if containsL response_lower (lowerL top_scorer_name.data) then
      if top_scorer_goals ∈ legacy_ints then
        { question_type := question_type, timestamp := now, accuracy := true,
          error_type := none, notes := [.includedGoalCount],
          expected_answer := some (.playerGoals top_scorer_name top_scorer_goals),
          llm_answer := ans }
      else
        { question_type := question_type, timestamp := now, accuracy := true,
          error_type := none, notes := [],
          expected_answer := some (.playerGoals top_scorer_name top_scorer_goals),
          llm_answer := ans }
    else
      { question_type := question_type, timestamp := now, accuracy := false,
        error_type := some "incorrect_player",
        notes := [.expectedPlayer top_scorer_name],
        expected_answer := some (.playerGoals top_scorer_name top_scorer_goals),
        llm_answer := ans }
  else if question_type = "team_goals" then
    if legacy_ints ≠ [] ∧ total_goals ∈ legacy_ints then
      { question_type := question_type, timestamp := now, accuracy := true,
        error_type := none, notes := [],
        expected_answer := some (.nat total_goals), llm_answer := ans }
    else
      { question_type := question_type, timestamp := now, accuracy := false,
        error_type := some "incorrect_calculation",
        notes := [.expectedWithInts total_goals legacy_ints],
        expected_answer := some (.nat total_goals), llm_answer := ans }
  else if question_type = "top_assists" then
    if containsL response_lower (lowerL top_assist_name.data) then
      { question_type := question_type, timestamp := now, accuracy := true,
        error_type := none, notes := [],
        expected_answer := some (.playerAssists top_assist_name top_assist_count),
        llm_answer := ans }
    else
      { question_type := question_type, timestamp := now, accuracy := false,
        error_type := some "incorrect_player",
        notes := [.expectedPlayer top_assist_name],
        expected_answer := some (.playerAssists top_assist_name top_assist_count),
        llm_answer := ans }
  else if question_type = "shooting_analysis" then
    let vp := extract_numbers_and_percents text
    let candidates := vp.2 ++ vp.1
    let hits := ((top3_shooting.map (fun d => (lowerL d.1.data, d.2))).filter
      (fun np => containsL response_lower np.1
        && candidates.any (fun x => decide (|x - np.2| ≤ 1/2)))).length
    if 2 ≤ hits then
      { question_type := question_type, timestamp := now, accuracy := true,
        error_type := none, notes := [],
        expected_answer := some (.shootList top3_shooting), llm_answer := ans }
    else
      { question_type := question_type, timestamp := now, accuracy := false,
        error_type := some "incorrect_shooting_analysis",
        notes := [.matchedHits hits],
        expected_answer := some (.shootList top3_shooting), llm_answer := ans }
  else if question_type = "offensive_balance" then
    let vals := (extract_numbers_and_percents text).1
    if vals.any (fun v => decide (pyRound v = (count_ge_10_goals : ℤ))) then
      { question_type := question_type, timestamp := now, accuracy := true,
        error_type := none, notes := [],
        expected_answer := some (.nat count_ge_10_goals), llm_answer := ans }
    else
      { question_type := question_type, timestamp := now, accuracy := false,
        error_type := some "incorrect_offensive_depth",
        notes := [.expectedWithVals count_ge_10_goals vals],
        expected_answer := some (.nat count_ge_10_goals), llm_answer := ans }
  else if question_type = "strategic_analysis" then
    let scores := score_strategic_response text
    if 3 ≤ scores.specificity ∧ 3 ≤ scores.actionability
        ∧ 3 ≤ scores.plausibility then
      { question_type := question_type, timestamp := now, accuracy := true,
        error_type := none, notes := [.scores scores],
        expected_answer := some .rubricDesc, llm_answer := ans }
    else
      { question_type := question_type, timestamp := now, accuracy := false,
        error_type := some "insufficient_rubric_scores", notes := [.scores scores],
        expected_answer := some .rubricDesc, llm_answer := ans }
  else
    { question_type := question_type, timestamp := now, accuracy := false,
      error_type := none, notes := [], expected_answer := none,
      llm_answer := ans }

def eraseTime : ValidationResult → ValidationResult
  | ⟨q, _, acc, err, notes, exp, ans⟩ => ⟨q, "", acc, err, notes, exp, ans⟩

lemma eraseTime_ite (C : Prop) [Decidable C] {a b c d : ValidationResult}
    (hac : eraseTime a = eraseTime c) (hbd : eraseTime b = eraseTime d) :
    eraseTime (if C then a else b) = eraseTime (if C then c else d) := by
  by_cases h : C <;> simp [h, hac, hbd]

/-- The hit count of the `shooting_analysis` policy, written against
the concrete ground truth: for each of the three top goal scorers, a
hit is one whose lower-cased name occurs in the lower-cased response
and for which some extracted percentage or bare number lies within
absolute tolerance 1/2 of the shooting percentage rounded to one
decimal. -/
def shootingHits (r : String) : ℕ :=
  let response_lower := lowerL r.data
  let vp := extract_numbers_and_percents r.data
  let candidates := vp.2 ++ vp.1
  (([("meaghan tyrrell".data, (609 : ℚ)/10),
     ("olivia adamson".data, (532 : ℚ)/10),
     ("emma ward".data, (489 : ℚ)/10)] : List (List Char × ℚ)).filter
    (fun np => containsL response_lower np.1
      && candidates.any (fun x => decide (|x - np.2| ≤ 1/2)))).length

/-- The number of distinct known player names occurring as substrings
of the lower-cased text — the `mentions` count actually computed by
`_score_strategic_response`. -/
def substrMentions (text : List Char) : ℕ :=
  (playerNamesLower.filter (fun n => containsL (lowerL text) n)).length

/-- Is the head of `cs` absent or a non-word character?  This is the
right-hand word-boundary test of the scanners, and the token-boundary
test used to state whole-token matching. -/
def headNonWord (cs : List Char) : Bool :=
  match cs with
  | [] => true
  | c :: _ => !wordChar c

/-- Is the last character of `cs` absent or a non-word character? -/
def lastNonWord (cs : List Char) : Bool :=
  match cs.getLast? with
  | none => true
  | some c => !wordChar c

/-- Modelled from the spec wording of the specificity axis: does `pat`
occur in `s` delimited by token boundaries (start of text or non-word
character on the left, end of text or non-word character on the
right)?  The parameter `bOk` says whether a token may start at the
current position. -/
def wholeTokenIn (bOk : Bool) (s pat : List Char) : Bool :=
  match s with
  | [] => bOk && pat.isEmpty
  | c :: rest =>
    (bOk && startsL pat (c :: rest) && headNonWord ((c :: rest).drop pat.length))
      || wholeTokenIn (!wordChar c) rest pat

/-- Modelled from the spec wording of the specificity axis: base 1,
plus 1 for every 2 distinct known player names found as whole-token
case-insensitive matches capped at 4, plus 1 if any digit is present,
clamped to 5.  This is the claimed scoring rule, to be compared with
the one computed by `_score_strategic_response`. -/
def specWholeToken (text : List Char) : ℕ :=
  let text_l := lowerL text
  let cnt := (playerNamesLower.filter (fun n => wholeTokenIn true text_l n)).length
  min 5 (1 + min 4 (cnt / 2) + (if text_l.any (·.isDigit) then 1 else 0))

/-- One stored result of `ResultsAnalyzer.add_result` (the timestamp
plays no role in the summary computation and is omitted). -/
structure TestRecord where
  prompt_type : String
  question : String
  llm_response : String
  accuracy : Bool
  error_type : Option String
deriving DecidableEq

/-- One step of the success-rate accumulation loop of
`generate_summary_report`: insert the record type with zero counts when
unseen (Python dict insertion preserves first-seen order), then bump
its total and, when the record was accurate, its accurate count. -/
def addToStats (stats : List (String × ℕ × ℕ)) (r : TestRecord) :
    List (String × ℕ × ℕ) :=
  let stats1 := if stats.any (fun p => decide (p.1 = r.prompt_type)) then stats
                else stats ++ [(r.prompt_type, 0, 0)]
  stats1.map (fun p =>
    if p.1 = r.prompt_type
    then (p.1, p.2.1 + 1, p.2.2 + (if r.accuracy then 1 else 0))
    else p)

/-- The per-type `(total, accurate)` table of `generate_summary_report`,
keyed by prompt type in first-seen order. -/
def type_stats (rs : List TestRecord) : List (String × ℕ × ℕ) :=
  rs.foldl addToStats []

/-- The success-rate expression of `generate_summary_report`:
`(accurate / total) * 100 if total else 0.0`. -/
def success_rate (total accurate : ℕ) : ℚ :=
  if total ≠ 0 then ((accurate : ℚ) / (total : ℚ)) * 100 else 0

/-- The first-seen-order deduplication of a list of category tags. -/
def firstSeen (l : List String) : List String :=
  l.foldl (fun ks x => if x ∈ ks then ks else ks ++ [x]) []

/-- C1: the claim asserts that for every text the extracted percentage
values are disjoint from the extracted plain numbers.  It is false: the
plain-number pattern also matches the numeric part of a `%`-suffixed
token, so for the text `60.9%` the value 60.9 is returned by both
extractors. -/
theorem C1_counterexample :
    ¬ (∀ x ∈ (extract_numbers_and_percents "60.9%".data).2,
        x ∉ (extract_numbers_and_percents "60.9%".data).1) := by decide

/-- C1 (amended): a value that comes from a `%`-suffixed token is in
general also returned among the extracted numbers — the two sequences
are not disjoint.  Shown on a representative text, whose percentage
value 53.2 appears in both returned sequences. -/
theorem C1_amended_not_disjoint :
    extract_numbers_and_percents "Shooting was 53.2 % overall".data
      = ([(532 : ℚ)/10], [(532 : ℚ)/10])
    ∧ ∃ x ∈ (extract_numbers_and_percents "Shooting was 53.2 % overall".data).2,
        x ∈ (extract_numbers_and_percents "Shooting was 53.2 % overall".data).1 := by
  decide

/-- C3: the claim asserts that the specificity axis counts player names
found as whole-token case-insensitive matches.  It is false: the code
uses plain substring containment, so a text embedding two player names
inside larger tokens scores 2 while the claimed whole-token rule scores
1. -/
theorem C3_counterexample :
    (score_strategic_response "xmeaghan tyrrell and xolivia adamson here".data).specificity = 2
    ∧ specWholeToken "xmeaghan tyrrell and xolivia adamson here".data = 1
    ∧ (score_strategic_response "xmeaghan tyrrell and xolivia adamson here".data).specificity
        ≠ specWholeToken "xmeaghan tyrrell and xolivia adamson here".data := by
  decide

/-- C3 (amended): the specificity axis score equals base 1, plus 1 for
every 2 distinct known player names found as case-insensitive
substrings (capped at 4), plus 1 if any digit is present, clamped to
5. -/
theorem C3_amended_substring (text : List Char) :
    (score_strategic_response text).specificity
      = min 5 (1 + min 4 (substrMentions text / 2)
          + (if (lowerL text).any (·.isDigit) then 1 else 0)) := rfl

/-- C2: the shooting_analysis policy counts a hit for each of the
top-3 goal scorers whose name occurs case-insensitively in the response
and for which some extracted percentage or bare number lies within
absolute tolerance 0.5 of the shooting percentage of that player rounded to
one decimal; accuracy holds iff at least 2 hits, and a failure carries
the error kind `incorrect_shooting_analysis`.  The ground truth list is
evaluated explicitly, and the 2-of-3 scenario of the spec is
verified. -/
theorem C2_shooting_policy (now r : String) :
    top3_shooting
        = [("Meaghan Tyrrell", (609 : ℚ)/10), ("Olivia Adamson", (532 : ℚ)/10),
           ("Emma Ward", (489 : ℚ)/10)]
    ∧ ((validate_response now r "shooting_analysis").accuracy = true
        ↔ 2 ≤ shootingHits r)
    ∧ ((validate_response now r "shooting_analysis").accuracy = false →
        (validate_response now r "shooting_analysis").error_type
          = some "incorrect_shooting_analysis")
    ∧ (validate_response now
        "Meaghan Tyrrell shot 60.9% and Olivia Adamson 53.2%, while Kaci Benoit was near 48.9%"
        "shooting_analysis").accuracy = true := by
  have hv : validate_response now r "shooting_analysis"
      = if 2 ≤ shootingHits r then
          { question_type := "shooting_analysis", timestamp := now, accuracy := true,
            error_type := none, notes := [],
            expected_answer := some (.shootList top3_shooting),
            llm_answer := truncResp r.data }
        else
          { question_type := "shooting_analysis", timestamp := now, accuracy := false,
            error_type := some "incorrect_shooting_analysis",
            notes := [.matchedHits (shootingHits r)],
            expected_answer := some (.shootList top3_shooting),
            llm_answer := truncResp r.data } := rfl
  refine ⟨by decide, ?_, ?_, rfl⟩
  · rw [hv]; by_cases h : 2 ≤ shootingHits r <;> simp [h]
  · rw [hv]; by_cases h : 2 ≤ shootingHits r <;> simp [h]

/-- C4: the offensive_balance policy passes iff some extracted number,
rounded to the nearest integer (Python `round`, ties to even), equals
the number of roster rows with at least 10 goals, which is 9; it passes
on a response carrying the expected count amid unrelated numbers and
fails with `incorrect_offensive_depth` when no extracted number rounds
to it. -/
theorem C4_offensive_balance (now r : String) :
    count_ge_10_goals = 9
    ∧ ((validate_response now r "offensive_balance").accuracy = true
        ↔ ∃ v ∈ (extract_numbers_and_percents r.data).1, pyRound v = 9)
    ∧ (validate_response now
        "Depth: 9 players hit double digits, alongside 70 goals and 115 shots"
        "offensive_balance").accuracy = true
    ∧ (validate_response now "About 12 contributors made an impact"
        "offensive_balance").accuracy = false
    ∧ (validate_response now "About 12 contributors made an impact"
        "offensive_balance").error_type = some "incorrect_offensive_depth" := by
  have hv : validate_response now r "offensive_balance"
      = if ((extract_numbers_and_percents r.data).1.any
            (fun v => decide (pyRound v = (count_ge_10_goals : ℤ)))) = true then
          { question_type := "offensive_balance", timestamp := now, accuracy := true,
            error_type := none, notes := [],
            expected_answer := some (.nat count_ge_10_goals),
            llm_answer := truncResp r.data }
        else
          { question_type := "offensive_balance", timestamp := now, accuracy := false,
            error_type := some "incorrect_offensive_depth",
            notes := [.expectedWithVals count_ge_10_goals
              ((extract_numbers_and_percents r.data).1)],
            expected_answer := some (.nat count_ge_10_goals),
            llm_answer := truncResp r.data } := rfl
  have h9 : (count_ge_10_goals : ℤ) = 9 := by decide
  have hcond : ((extract_numbers_and_percents r.data).1.any
        (fun v => decide (pyRound v = (count_ge_10_goals : ℤ))) = true)
      ↔ ∃ v ∈ (extract_numbers_and_percents r.data).1, pyRound v = 9 := by
    rw [List.any_eq_true]
    constructor
    · rintro ⟨v, hm, hd⟩
      have hval := of_decide_eq_true hd
      rw [h9] at hval
      exact ⟨v, hm, hval⟩
    · rintro ⟨v, hm, he⟩
      exact ⟨v, hm, decide_eq_true (by rw [h9]; exact he)⟩
  refine ⟨by decide, ?_, rfl, rfl, rfl⟩
  rw [hv]
  by_cases h : (extract_numbers_and_percents r.data).1.any
      (fun v => decide (pyRound v = (count_ge_10_goals : ℤ))) = true
  · rw [if_pos h]
    simpa using hcond.mp h
  · rw [if_neg h]
    simp only [Bool.false_eq_true, false_iff]
    exact fun hex => h (hcond.mpr hex)

/-- C8: the top_scorer policy passes exactly when the expected top
scorer full name occurs case-insensitively in the response,
independently of any numbers; the expected top scorer computed from the
roster is Meaghan Tyrrell with 70 goals, and the two spec scenarios
evaluate as claimed. -/
theorem C8_top_scorer (now r : String) :
    ((validate_response now r "top_scorer").accuracy
        = containsL (lowerL r.data) "meaghan tyrrell".data)
    ∧ top_scorer_name = "Meaghan Tyrrell"
    ∧ top_scorer_goals = 70
    ∧ (validate_response now "Meaghan Tyrrell led with 70 goals"
        "top_scorer").accuracy = true
    ∧ (validate_response now "Meaghan Tyrrell led with 70 goals"
        "top_scorer").error_type = none
    ∧ (validate_response now "Olivia Adamson led the team with 58 goals"
        "top_scorer").accuracy = false
    ∧ (validate_response now "Olivia Adamson led the team with 58 goals"
        "top_scorer").error_type = some "incorrect_player" := by
  refine ⟨?_, by decide, by decide, rfl, rfl, rfl, rfl⟩
  show (if containsL (lowerL r.data) (lowerL top_scorer_name.data) then
          if top_scorer_goals ∈ extract_numbers_legacy r.data then
            ({ question_type := "top_scorer", timestamp := now, accuracy := true,
               error_type := none, notes := [.includedGoalCount],
               expected_answer := some (.playerGoals top_scorer_name top_scorer_goals),
               llm_answer := truncResp r.data } : ValidationResult)
          else
            { question_type := "top_scorer", timestamp := now, accuracy := true,
              error_type := none, notes := [],
              expected_answer := some (.playerGoals top_scorer_name top_scorer_goals),
              llm_answer := truncResp r.data }
        else
          { question_type := "top_scorer", timestamp := now, accuracy := false,
            error_type := some "incorrect_player",
            notes := [.expectedPlayer top_scorer_name],
            expected_answer := some (.playerGoals top_scorer_name top_scorer_goals),
            llm_answer := truncResp r.data }).accuracy
      = containsL (lowerL r.data) "meaghan tyrrell".data
  have hname : lowerL top_scorer_name.data = "meaghan tyrrell".data := by decide
  rw [hname]
  by_cases h : containsL (lowerL r.data) "meaghan tyrrell".data
  · simp only [h, if_true]
    by_cases h2 : top_scorer_goals ∈ extract_numbers_legacy r.data <;> simp [h2]
  · simp [h]

lemma goNums_no_digit (cs : List Char) (h : ∀ c ∈ cs, c.isDigit = false) :
    ∀ pW, goNums (.out pW) cs = [] := by
  induction cs with
  | nil => intro pW; rfl
  | cons c rest ih =>
    intro pW
    have hc : c.isDigit = false := h c (List.mem_cons_self c rest)
    simp only [goNums, hc, Bool.false_and, Bool.false_eq_true, if_false]
    exact ih (fun x hx => h x (List.mem_cons_of_mem _ hx)) _

lemma goPcts_no_digit (cs : List Char) (h : ∀ c ∈ cs, c.isDigit = false) :
    ∀ pW, goPcts (.out pW) cs = [] := by
  induction cs with
  | nil => intro pW; rfl
  | cons c rest ih =>
    intro pW
    have hc : c.isDigit = false := h c (List.mem_cons_self c rest)
    simp only [goPcts, hc, Bool.false_and, Bool.false_eq_true, if_false]
    exact ih (fun x hx => h x (List.mem_cons_of_mem _ hx)) _

lemma goLegacy_no_digit (cs : List Char) (h : ∀ c ∈ cs, c.isDigit = false) :
    ∀ pW, goLegacy (.out pW) cs = [] := by
  induction cs with
  | nil => intro pW; rfl
  | cons c rest ih =>
    intro pW
    have hc : c.isDigit = false := h c (List.mem_cons_self c rest)
    simp only [goLegacy, hc, Bool.false_and, Bool.false_eq_true, if_false]
    exact ih (fun x hx => h x (List.mem_cons_of_mem _ hx)) _

/-- C5: for a question type that is none of the eight recognized tags,
`validate_response` falls through every branch and returns the freshly
initialized result dictionary: accuracy false, no error kind, no
expected answer, empty notes — a silent false result. -/
theorem C5_unrecognized_type_silent (now r q : String)
    (h : q ∉ ["season_record", "total_games", "top_scorer", "team_goals",
              "top_assists", "shooting_analysis", "offensive_balance",
              "strategic_analysis"]) :
    (validate_response now r q).accuracy = false
    ∧ (validate_response now r q).error_type = none
    ∧ (validate_response now r q).expected_answer = none
    ∧ (validate_response now r q).notes = [] := by
  simp only [List.mem_cons, List.not_mem_nil, or_false, not_or] at h
  obtain ⟨h1, h2, h3, h4, h5, h6, h7, h8⟩ := h
  simp [validate_response, h1, h2, h3, h4, h5, h6, h7, h8]

/-- Witness for C5 at the concrete unrecognized tag
`"win_probability"`. -/
theorem C5_witness :
    ("win_probability" ∉ ["season_record", "total_games", "top_scorer", "team_goals",
        "top_assists", "shooting_analysis", "offensive_balance",
        "strategic_analysis"])
    ∧ ((validate_response "t" "hello" "win_probability").accuracy = false
        ∧ (validate_response "t" "hello" "win_probability").error_type = none
        ∧ (validate_response "t" "hello" "win_probability").expected_answer = none
        ∧ (validate_response "t" "hello" "win_probability").notes = []) :=
  ⟨by decide, C5_unrecognized_type_silent "t" "hello" "win_probability" (by decide)⟩

/-- C6: on a text with no digit (the empty text included), both
extractors return empty sequences and each numeric-dependent policy
returns accuracy false with a present error kind. -/
theorem C6_no_digits_fail_closed (now t : String)
    (h : ∀ c ∈ t.data, c.isDigit = false) :
    extract_numbers_and_percents t.data = ([], [])
    ∧ extract_numbers_legacy t.data = []
    ∧ ∀ q ∈ (["total_games", "team_goals", "shooting_analysis",
              "offensive_balance"] : List String),
        (validate_response now t q).accuracy = false
        ∧ (validate_response now t q).error_type ≠ none := by
  have hn : goNums (.out false) t.data = [] := goNums_no_digit _ h _
  have hp : goPcts (.out false) t.data = [] := goPcts_no_digit _ h _
  have hle : extract_numbers_legacy t.data = [] := goLegacy_no_digit _ h _
  have he : extract_numbers_and_percents t.data = ([], []) := by
    simp [extract_numbers_and_percents, hn, hp]
  refine ⟨he, hle, ?_⟩
  intro q hq
  simp only [List.mem_cons, List.not_mem_nil, or_false] at hq
  rcases hq with rfl | rfl | rfl | rfl
  · have hv : validate_response now t "total_games"
        = if extract_numbers_legacy t.data ≠ []
              ∧ total_games ∈ extract_numbers_legacy t.data then
            { question_type := "total_games", timestamp := now, accuracy := true,
              error_type := none, notes := [],
              expected_answer := some (.nat total_games),
              llm_answer := truncResp t.data }
          else
            { question_type := "total_games", timestamp := now, accuracy := false,
              error_type := some "incorrect_calculation",
              notes := [.expectedWithInts total_games (extract_numbers_legacy t.data)],
              expected_answer := some (.nat total_games),
              llm_answer := truncResp t.data } := rfl
    rw [hv, if_neg (by simp [hle])]
    exact ⟨rfl, by simp⟩
  · have hv : validate_response now t "team_goals"
        = if extract_numbers_legacy t.data ≠ []
              ∧ total_goals ∈ extract_numbers_legacy t.data then
            { question_type := "team_goals", timestamp := now, accuracy := true,
              error_type := none, notes := [],
              expected_answer := some (.nat total_goals),
              llm_answer := truncResp t.data }
          else
            { question_type := "team_goals", timestamp := now, accuracy := false,
              error_type := some "incorrect_calculation",
              notes := [.expectedWithInts total_goals (extract_numbers_legacy t.data)],
              expected_answer := some (.nat total_goals),
              llm_answer := truncResp t.data } := rfl
    rw [hv, if_neg (by simp [hle])]
    exact ⟨rfl, by simp⟩
  · have hv : validate_response now t "shooting_analysis"
        = if 2 ≤ shootingHits t then
            { question_type := "shooting_analysis", timestamp := now, accuracy := true,
              error_type := none, notes := [],
              expected_answer := some (.shootList top3_shooting),
              llm_answer := truncResp t.data }
          else
            { question_type := "shooting_analysis", timestamp := now, accuracy := false,
              error_type := some "incorrect_shooting_analysis",
              notes := [.matchedHits (shootingHits t)],
              expected_answer := some (.shootList top3_shooting),
              llm_answer := truncResp t.data } := rfl
    have hs : shootingHits t = 0 := by
      simp [shootingHits, he]
    rw [hv, hs, if_neg (by norm_num)]
    exact ⟨rfl, by simp⟩
  · have hv : validate_response now t "offensive_balance"
        = if ((extract_numbers_and_percents t.data).1.any
              (fun v => decide (pyRound v = (count_ge_10_goals : ℤ)))) = true then
            { question_type := "offensive_balance", timestamp := now, accuracy := true,
              error_type := none, notes := [],
              expected_answer := some (.nat count_ge_10_goals),
              llm_answer := truncResp t.data }
          else
            { question_type := "offensive_balance", timestamp := now, accuracy := false,
              error_type := some "incorrect_offensive_depth",
              notes := [.expectedWithVals count_ge_10_goals
                ((extract_numbers_and_percents t.data).1)],
              expected_answer := some (.nat count_ge_10_goals),
              llm_answer := truncResp t.data } := rfl
    rw [hv, if_neg (by simp [he])]
    exact ⟨rfl, by simp⟩

/-- Witness for C6 at a concrete digit-free text. -/
theorem C6_witness :
    (∀ c ∈ ("No numeric content here at all" : String).data, c.isDigit = false)
    ∧ (extract_numbers_and_percents "No numeric content here at all".data = ([], [])
        ∧ extract_numbers_legacy "No numeric content here at all".data = []
        ∧ ∀ q ∈ (["total_games", "team_goals", "shooting_analysis",
                  "offensive_balance"] : List String),
            (validate_response "t" "No numeric content here at all" q).accuracy = false
            ∧ (validate_response "t" "No numeric content here at all" q).error_type
                ≠ none) :=
  ⟨by decide, C6_no_digits_fail_closed "t" "No numeric content here at all" (by decide)⟩

/-- C7: `validate_response` is a pure function of the response text,
the question type and the (fixed) ground truth: two calls differing
only in the received timestamp agree on every other field. -/
theorem C7_deterministic_up_to_timestamp (t1 t2 r q : String) :
    eraseTime (validate_response t1 r q) = eraseTime (validate_response t2 r q) := by
  simp only [validate_response]
  repeat first
    | rfl
    | refine eraseTime_ite _ ?_ ?_

lemma digit_isWord (c : Char) (h : c.isDigit = true) : wordChar c = true := by
  simp [wordChar, Char.isAlphanum, h]

lemma goLegacy_cons (st : LegSt) (c : Char) (zs : List Char) :
    ∃ E st2, goLegacy st (c :: zs) = E ++ goLegacy st2 zs := by
  cases st with
  | out pW =>
    by_cases h : (c.isDigit && !pW) = true
    · exact ⟨[], .intg (digitVal c), by simp [goLegacy, h]⟩
    · exact ⟨[], .out (wordChar c), by simp [goLegacy, h]⟩
  | intg a =>
    by_cases h1 : c.isDigit = true
    · exact ⟨[], .intg (10 * a + digitVal c), by simp [goLegacy, h1]⟩
    · by_cases h2 : wordChar c = true
      · exact ⟨[], .out true, by simp [goLegacy, h1, h2]⟩
      · exact ⟨[a], .out false, by simp [goLegacy, h1, h2]⟩

lemma goLegacy_skip : ∀ xs : List Char, xs ≠ [] → lastNonWord xs = true →
    ∀ (st : LegSt) (ys : List Char),
      ∃ out, goLegacy st (xs ++ ys) = out ++ goLegacy (.out false) ys := by
  intro xs
  induction xs with
  | nil => exact fun hx => absurd rfl hx
  | cons c rest ih =>
    intro _ h st ys
    cases rest with
    | nil =>
      have hw : wordChar c = false := by
        simpa [lastNonWord] using h
      have hd : c.isDigit = false := by
        cases hcd : c.isDigit
        · rfl
        · rw [digit_isWord c hcd] at hw; exact absurd hw (by simp)
      cases st with
      | out pW => exact ⟨[], by simp [goLegacy, hd, hw]⟩
      | intg a => exact ⟨[a], by simp [goLegacy, hd, hw]⟩
    | cons c2 rest2 =>
      have hlast : lastNonWord (c2 :: rest2) = true := by
        simpa [lastNonWord, List.getLast?_cons_cons] using h
      obtain ⟨E, st2, hstep⟩ := goLegacy_cons st c ((c2 :: rest2) ++ ys)
      obtain ⟨out2, hout2⟩ := ih (by simp) hlast st2 ys
      exact ⟨E ++ out2, by rw [List.cons_append, hstep, hout2, List.append_assoc]⟩

lemma goLegacy_225 (b : List Char) (hb : headNonWord b = true) :
    ∃ t, goLegacy (.out false) ("22.5".data ++ b) = 22 :: 5 :: t := by
  have h1 : goLegacy (.out false) ("22.5".data ++ b)
      = 22 :: goLegacy (.intg 5) b := rfl
  cases b with
  | nil => exact ⟨[], by rw [h1]; rfl⟩
  | cons c b2 =>
    have hw : wordChar c = false := by simpa [headNonWord] using hb
    have hd : c.isDigit = false := by
      cases hcd : c.isDigit
      · rfl
      · rw [digit_isWord c hcd] at hw; exact absurd hw (by simp)
    exact ⟨goLegacy (.out false) b2, by rw [h1]; simp [goLegacy, hd, hw]⟩

/-- C9: the legacy integer pattern is word-bounded digit runs, so a
decimal token such as `22.5` delimited by token boundaries contributes
both 22 and 5 to the extracted integers; consequently a response
containing `22.5` passes the total_games check, whose expected value is
22. -/
theorem C9_decimal_token_split (now : String) (a b : List Char)
    (ha : lastNonWord a = true) (hb : headNonWord b = true) :
    22 ∈ extract_numbers_legacy (a ++ "22.5".data ++ b)
    ∧ 5 ∈ extract_numbers_legacy (a ++ "22.5".data ++ b)
    ∧ (validate_response now (String.mk (a ++ "22.5".data ++ b))
        "total_games").accuracy = true := by
  obtain ⟨t0, hmid⟩ := goLegacy_225 b hb
  have key : ∃ out, extract_numbers_legacy (a ++ "22.5".data ++ b)
      = out ++ (22 :: 5 :: t0) := by
    rcases eq_or_ne a [] with rfl | hne
    · exact ⟨[], by simpa [extract_numbers_legacy] using hmid⟩
    · obtain ⟨out, hout⟩ := goLegacy_skip a hne ha (.out false) ("22.5".data ++ b)
      refine ⟨out, ?_⟩
      calc extract_numbers_legacy (a ++ "22.5".data ++ b)
          = goLegacy (.out false) (a ++ ("22.5".data ++ b)) := by
            rw [extract_numbers_legacy, List.append_assoc]
        _ = out ++ goLegacy (.out false) ("22.5".data ++ b) := hout
        _ = out ++ (22 :: 5 :: t0) := by rw [hmid]
  obtain ⟨out, hkey⟩ := key
  have h22 : 22 ∈ extract_numbers_legacy (a ++ "22.5".data ++ b) := by
    rw [hkey]; simp
  have h5 : 5 ∈ extract_numbers_legacy (a ++ "22.5".data ++ b) := by
    rw [hkey]; simp
  refine ⟨h22, h5, ?_⟩
  have hv : validate_response now (String.mk (a ++ "22.5".data ++ b)) "total_games"
      = if extract_numbers_legacy (a ++ "22.5".data ++ b) ≠ []
            ∧ total_games ∈ extract_numbers_legacy (a ++ "22.5".data ++ b) then
          { question_type := "total_games", timestamp := now, accuracy := true,
            error_type := none, notes := [],
            expected_answer := some (.nat total_games),
            llm_answer := truncResp (a ++ "22.5".data ++ b) }
        else
          { question_type := "total_games", timestamp := now, accuracy := false,
            error_type := some "incorrect_calculation",
            notes := [.expectedWithInts total_games
              (extract_numbers_legacy (a ++ "22.5".data ++ b))],
            expected_answer := some (.nat total_games),
            llm_answer := truncResp (a ++ "22.5".data ++ b) } := rfl
  rw [hv, if_pos ⟨by rw [hkey]; simp, h22⟩]

/-- Witness for C9 at concrete surrounding texts. -/
theorem C9_witness :
    lastNonWord ("The total was " : String).data = true
    ∧ headNonWord (" games in all." : String).data = true
    ∧ (22 ∈ extract_numbers_legacy
          ("The total was ".data ++ "22.5".data ++ " games in all.".data)
        ∧ 5 ∈ extract_numbers_legacy
            ("The total was ".data ++ "22.5".data ++ " games in all.".data)
        ∧ (validate_response "t"
            (String.mk ("The total was ".data ++ "22.5".data ++ " games in all.".data))
            "total_games").accuracy = true) :=
  ⟨by decide, by decide,
   C9_decimal_token_split "t" "The total was ".data " games in all.".data
     (by decide) (by decide)⟩

lemma fst_addToStats (acc : List (String × ℕ × ℕ)) (r : TestRecord) :
    (addToStats acc r).map (fun p => p.1)
      = if r.prompt_type ∈ acc.map (fun p => p.1) then acc.map (fun p => p.1)
        else acc.map (fun p => p.1) ++ [r.prompt_type] := by
  have hbump : ∀ l : List (String × ℕ × ℕ),
      (l.map (fun p => if p.1 = r.prompt_type
          then (p.1, p.2.1 + 1, p.2.2 + (if r.accuracy then 1 else 0))
          else p)).map (fun p => p.1)
        = l.map (fun p => p.1) := by
    intro l
    rw [List.map_map]
    apply List.map_congr_left
    intro p _
    by_cases hp : p.1 = r.prompt_type <;> simp [hp]
  simp only [addToStats]
  by_cases h : acc.any (fun p => decide (p.1 = r.prompt_type)) = true
  · have hm : r.prompt_type ∈ acc.map (fun p => p.1) := by
      rcases List.any_eq_true.mp h with ⟨p, hp, hpe⟩
      have he := of_decide_eq_true hpe
      rw [← he]
      exact List.mem_map_of_mem _ hp
    rw [if_pos h, hbump, if_pos hm]
  · have hm : r.prompt_type ∉ acc.map (fun p => p.1) := by
      intro hmem
      rcases List.mem_map.mp hmem with ⟨p, hp, he⟩
      exact h (List.any_eq_true.mpr ⟨p, hp, decide_eq_true he⟩)
    rw [if_neg h, hbump, if_neg hm, List.map_append]
    rfl

lemma type_stats_keys : ∀ (rs : List TestRecord) (acc : List (String × ℕ × ℕ)),
    (rs.foldl addToStats acc).map (fun p => p.1)
      = (rs.map (fun r => r.prompt_type)).foldl
          (fun ks x => if x ∈ ks then ks else ks ++ [x])
          (acc.map (fun p => p.1)) := by
  intro rs
  induction rs with
  | nil => intro acc; rfl
  | cons r rest ih =>
    intro acc
    rw [List.foldl_cons, List.map_cons, List.foldl_cons, ih, fst_addToStats]

lemma type_stats_pos : ∀ (rs : List TestRecord) (acc : List (String × ℕ × ℕ)),
    (∀ p ∈ acc, 0 < p.2.1) → ∀ p ∈ rs.foldl addToStats acc, 0 < p.2.1 := by
  intro rs
  induction rs with
  | nil => intro acc h; simpa using h
  | cons r rest ih =>
    intro acc hacc
    rw [List.foldl_cons]
    apply ih
    intro p hp
    simp only [addToStats] at hp
    rcases List.mem_map.mp hp with ⟨p0, hp0, hbe⟩
    by_cases hc : p0.1 = r.prompt_type
    · rw [if_pos hc] at hbe
      rw [← hbe]
      simp
    · rw [if_neg hc] at hbe
      by_cases hany : acc.any (fun p => decide (p.1 = r.prompt_type)) = true
      · rw [if_pos hany] at hp0
        exact hbe ▸ hacc p0 hp0
      · rw [if_neg hany] at hp0
        rcases List.mem_append.mp hp0 with h0 | h0
        · exact hbe ▸ hacc p0 h0
        · rw [List.mem_singleton] at h0
          exact absurd (by rw [h0]) hc

/-- C10: the summary computation groups records by category in
first-seen order; every grouped category has a positive total (each
entry is created together with its first increment), so the
`accurate/total` division never has a zero denominator, and the rate
expression carries an explicit guard returning 0 when the total is
zero. -/
theorem C10_summary_no_div_by_zero (rs : List TestRecord) :
    (type_stats rs).map (fun p => p.1) = firstSeen (rs.map (fun r => r.prompt_type))
    ∧ (type_stats rs).all (fun p => decide (0 < p.2.1)) = true
    ∧ ∀ a : ℕ, success_rate 0 a = 0 := by
  refine ⟨?_, ?_, fun a => by simp [success_rate]⟩
  · rw [type_stats, firstSeen, type_stats_keys]
    rfl
  · rw [List.all_eq_true]
    intro p hp
    exact decide_eq_true (type_stats_pos rs [] (by simp) p hp)

end SyracuseValidation
